import Mathlib

/-!
Verification development for the mock-and-roll request-dispatch and
response-resolution engine.

The definitions below are a shallow embedding of the Python source:

* `src/processing/templates.py`  — condition matcher, response-body template
  processing, timestamp substitution, path-parameter token handling;
* `src/auth/security.py`         — auth placeholder resolver with its
  request-cycle cache, and the multi-method auth verifier;
* `src/handlers/routes.py`       — the per-endpoint handler dispatch logic;
* `src/persistence/redis_client.py` — the entity store over Redis.

JSON data is modelled by the inductive `JsonVal`; Python dictionaries are
association lists in insertion order; Python `None` is `JsonVal.null`;
`random.choice` and the UUID/timestamp generators are modelled by an
explicit oracle (`Oracle`) supplying the index chosen for each cache key and
the strings the generators produce during one resolution pass.
-/

/-- JSON-like values as produced by parsing request/response bodies.
Numbers are modelled as integers; floating point bodies do not occur in
any claim considered here. -/
inductive JsonVal where
  | null : JsonVal
  | bool (b : Bool) : JsonVal
  | int (n : Int) : JsonVal
  | str (s : String) : JsonVal
  | arr (xs : List JsonVal) : JsonVal
  | obj (kvs : List (String × JsonVal)) : JsonVal
deriving Repr

/- Structural equality test on JSON values, written by hand because the
nested inductive cannot derive `DecidableEq` automatically. -/
mutual

def jsonBeq : JsonVal → JsonVal → Bool
  | JsonVal.null, JsonVal.null => true
  | JsonVal.bool x, JsonVal.bool y => x == y
  | JsonVal.int x, JsonVal.int y => x == y
  | JsonVal.str x, JsonVal.str y => x == y
  | JsonVal.arr xs, JsonVal.arr ys => jsonBeqArr xs ys
  | JsonVal.obj xs, JsonVal.obj ys => jsonBeqObj xs ys
  | _, _ => false

def jsonBeqArr : List JsonVal → List JsonVal → Bool
  | [], [] => true
  | x :: xs, y :: ys => jsonBeq x y && jsonBeqArr xs ys
  | _, _ => false

def jsonBeqObj : List (String × JsonVal) → List (String × JsonVal) → Bool
  | [], [] => true
  | (k, v) :: xs, (k2, v2) :: ys =>
    k == k2 && jsonBeq v v2 && jsonBeqObj xs ys
  | _, _ => false

end

mutual

theorem jsonBeq_eq : ∀ a b, jsonBeq a b = true ↔ a = b
  | JsonVal.null, b => by cases b <;> simp [jsonBeq]
  | JsonVal.bool x, b => by cases b <;> simp [jsonBeq]
  | JsonVal.int x, b => by cases b <;> simp [jsonBeq]
  | JsonVal.str x, b => by cases b <;> simp [jsonBeq]
  | JsonVal.arr xs, b => by
    cases b <;> simp [jsonBeq]
    exact jsonBeqArr_eq xs _
  | JsonVal.obj xs, b => by
    cases b <;> simp [jsonBeq]
    exact jsonBeqObj_eq xs _

theorem jsonBeqArr_eq : ∀ xs ys, jsonBeqArr xs ys = true ↔ xs = ys
  | [], [] => by simp [jsonBeqArr]
  | [], _ :: _ => by simp [jsonBeqArr]
  | _ :: _, [] => by simp [jsonBeqArr]
  | x :: xs, y :: ys => by
    simp [jsonBeqArr, jsonBeq_eq x y, jsonBeqArr_eq xs ys]

theorem jsonBeqObj_eq : ∀ xs ys, jsonBeqObj xs ys = true ↔ xs = ys
  | [], [] => by simp [jsonBeqObj]
  | [], _ :: _ => by simp [jsonBeqObj]
  | _ :: _, [] => by simp [jsonBeqObj]
  | (k, v) :: xs, (k2, v2) :: ys => by
    simp [jsonBeqObj, jsonBeq_eq v v2, jsonBeqObj_eq xs ys, and_assoc]

end

instance : DecidableEq JsonVal :=
  fun a b => decidable_of_iff _ (jsonBeq_eq a b)

/-- Association-list lookup, the model of Python `dict[key]` when present. -/
def alistFind {α : Type} (kvs : List (String × α)) (k : String) : Option α :=
  match kvs with
  | [] => none
  | (k', v) :: rest => if k' = k then some v else alistFind rest k

/-- Model of Python `dict.get(key)`: `None` when the key is absent.  Because
Python conflates a stored `None` with an absent key, the result is a
`JsonVal` with `null` standing for both. -/
def pyGet (kvs : List (String × JsonVal)) (k : String) : JsonVal :=
  match alistFind kvs k with
  | some v => v
  | none => JsonVal.null

/-- Model of `check_conditions` from `src/processing/templates.py` lines
21-29.  Python `if not conditions` is true for the empty dict, so an empty
conditions map returns `False`; otherwise every key in `conditions` must
satisfy `data.get(key) == expected_value`. -/
def check_conditions (data : List (String × JsonVal))
    (conditions : List (String × JsonVal)) : Bool :=
  if conditions = [] then false
  else conditions.all (fun kv => decide (pyGet data kv.1 = kv.2))

/-- Pointwise-equal predicates give equal `List.all` results. -/
theorem list_all_congr {α : Type} (l : List α) (f g : α → Bool)
    (h : ∀ x ∈ l, f x = g x) : l.all f = l.all g := by
  induction l with
  | nil => rfl
  | cons a t ih =>
    simp only [List.all_cons, h a (by simp)]
    rw [ih (fun x hx => h x (by simp [hx]))]

/-- The property claim C3 asserts of the matcher, at a given body and a
given non-null conditions map: true iff every conditions key is present in
the body with an exactly equal value. -/
def claimC3Holds (data : List (String × JsonVal))
    (conditions : List (String × JsonVal)) : Prop :=
  check_conditions data conditions = true ↔
    ∀ kv ∈ conditions, alistFind data kv.1 = some kv.2

/-- C3 counterexample: for the empty (non-null) conditions map the claim
asserts the matcher returns true for every body, but `check_conditions`
returns `false` (Python `if not conditions` treats the empty dict as
falsy), so the claimed equivalence fails at the body `{"a": 1}`. -/
theorem check_conditions_empty_conditions_refutes_claim :
    ¬ claimC3Holds [("a", JsonVal.int 1)] [] := by
  intro h
  have h2 := h.mpr (by intro kv hkv; cases hkv)
  simp [check_conditions] at h2

/-- Amended C3: `check_conditions` returns true iff the conditions map is
non-empty and every key in it maps to a value equal to the body's
`dict.get` lookup of that key (`null` when the key is absent, so a
condition expecting `null` is also satisfied by an absent key); the empty
conditions map always returns false.  Moreover extra keys in the body
never affect the result: the outcome depends only on the body's lookups at
the conditions' own keys. -/
theorem check_conditions_characterization
    (data data2 conditions : List (String × JsonVal))
    (hsame : ∀ kv ∈ conditions, pyGet data kv.1 = pyGet data2 kv.1) :
    (check_conditions data conditions = true ↔
      conditions ≠ [] ∧ ∀ kv ∈ conditions, pyGet data kv.1 = kv.2) ∧
    check_conditions data conditions = check_conditions data2 conditions := by
  constructor
  · unfold check_conditions
    by_cases h : conditions = []
    · simp [h]
    · simp [h, List.all_eq_true]
  · unfold check_conditions
    by_cases h : conditions = []
    · simp [h]
    · simp only [h, if_false]
      apply list_all_congr
      intro kv hkv
      rw [hsame kv hkv]

/-- Witness for the amended C3 at concrete inputs: `matches({a:1,b:2},
{a:1})` is true (and unchanged when the extra key `b` is removed from the
body), while `matches({a:1}, {a:1,b:2})` is false. -/
theorem check_conditions_characterization_witness :
    check_conditions [("a", JsonVal.int 1), ("b", JsonVal.int 2)]
        [("a", JsonVal.int 1)] = true ∧
    check_conditions [("a", JsonVal.int 1)]
        [("a", JsonVal.int 1), ("b", JsonVal.int 2)] = false := by
  have h := check_conditions_characterization
    [("a", JsonVal.int 1), ("b", JsonVal.int 2)] [("a", JsonVal.int 1)]
    [("a", JsonVal.int 1)] (by decide)
  constructor
  · apply h.1.mpr
    refine ⟨by decide, ?_⟩
    intro kv hkv
    simp only [List.mem_singleton] at hkv
    subst hkv
    decide
  · decide

/-! ### Entity store model (`src/persistence/redis_client.py`)

The Redis connection is `Option RedisStore`: `none` models an unreachable
backing store (the client's lazy connect failed), `some st` a reachable
store holding entries with absolute expiry times.  `setex key ttl value`
at time `now` stores with expiry `now + ttl`; a key is visible while
`now < expiry`.  JSON serialization (`json.dumps`/`json.loads`) round-trips
the stored value, so entries hold the `JsonVal` directly; the stored text
is never the empty string, so the `if data:` falsiness check in
`get_entity` never masks a live value.  UUID generation and
`datetime.utcnow()` are oracle inputs (`new_id`, `created_at`). -/

structure RedisEntry where
  key : String
  value : JsonVal
  expiry : Nat
deriving Repr, DecidableEq

/-- A reachable Redis database: a set of keyed entries with expiry. -/
abbrev RedisStore := List RedisEntry

/-- Redis glob-style matching restricted to the `*` and `?` wildcards
(character classes are not used by this code base: the only pattern ever
issued is `"{entity_name}.*"`). -/
def globMatch (p s : List Char) : Bool :=
  match p, s with
  | [], [] => true
  | [], _ :: _ => false
  | p0 :: ps, s =>
    if p0 = '*' then
      globMatch ps s ||
        (match s with
         | [] => false
         | _ :: s' => globMatch (p0 :: ps) s')
    else
      match s with
      | [] => false
      | c :: s' =>
        if p0 = '?' then globMatch ps s'
        else p0 = c && globMatch ps s'
termination_by (p.length, s.length)

/-- Visibility of an entry at a given time. -/
def liveAt (now : Nat) (e : RedisEntry) : Bool :=
  decide (now < e.expiry)

/-- Model of `redis.setex`: overwrite any entry at the key and store the
value with expiry `now + ttl`. -/
def setex (st : RedisStore) (k : String) (expiry : Nat) (v : JsonVal) :
    RedisStore :=
  st.filter (fun e => !(e.key == k)) ++ [⟨k, v, expiry⟩]

/-- Model of `redis.get` at a time instant: the value stored at the key if
the key exists and has not expired. -/
def redisGet (st : RedisStore) (now : Nat) (k : String) : Option JsonVal :=
  match st.find? (fun e => e.key == k && liveAt now e) with
  | some e => some e.value
  | none => none

/-- The metadata wrapper built by `store_entity` (redis_client.py line 59):
`{"id": ..., "entity_type": ..., "created_at": ..., "data": payload}`. -/
def entityRecord (entity_id entity_name created_at : String)
    (data : JsonVal) : JsonVal :=
  JsonVal.obj [("id", JsonVal.str entity_id),
    ("entity_type", JsonVal.str entity_name),
    ("created_at", JsonVal.str created_at),
    ("data", data)]

/-- Model of `store_entity` (redis_client.py lines 49-67): 503 when the
store is unreachable, otherwise store the wrapped record under
`"{entity_name}.{generated-id}"` with the fixed 3600-second TTL and return
the generated id. -/
def store_entity (conn : Option RedisStore) (now : Nat)
    (new_id created_at : String) (entity_name : String) (data : JsonVal) :
    Except (Nat × String) (String × RedisStore) :=
  match conn with
  | none => Except.error (503, "Redis not available")
  | some st =>
    let key := entity_name ++ "." ++ new_id
    Except.ok (new_id,
      setex st key (now + 3600) (entityRecord new_id entity_name created_at data))

/-- Model of `get_entity` (redis_client.py lines 70-84): `None` when the
store is unreachable, else the stored value at `"{entity_name}.{id}"` when
present and unexpired, else `None`. -/
def get_entity (conn : Option RedisStore) (now : Nat)
    (entity_name entity_id : String) : Option JsonVal :=
  match conn with
  | none => none
  | some st => redisGet st now (entity_name ++ "." ++ entity_id)

/-- Model of `list_entities` (redis_client.py lines 87-105): values of all
live keys matching `"{entity_name}.*"`; the empty list when the store is
unreachable. -/
def list_entities (conn : Option RedisStore) (now : Nat)
    (entity_name : String) : List JsonVal :=
  match conn with
  | none => []
  | some st =>
    (st.filter (fun e =>
      globMatch (entity_name ++ ".*").data e.key.data && liveAt now e)).map
      (fun e => e.value)

/-- A single `*` wildcard matches every string. -/
theorem globMatch_star_any (s : List Char) : globMatch ['*'] s = true := by
  induction s with
  | nil => simp [globMatch]
  | cons c s' ih => simp [globMatch, ih]

/-- A glob pattern made of a literal prefix (no wildcards) followed by a
pattern continuation matches `p ++ s` exactly when the continuation
matches `s`. -/
theorem globMatch_lit_append (p : List Char)
    (hp : ∀ c ∈ p, c ≠ '*' ∧ c ≠ '?') (q s : List Char) :
    globMatch (p ++ q) (p ++ s) = globMatch q s := by
  induction p with
  | nil => simp
  | cons c p' ih =>
    have hc := hp c (by simp)
    have ih' := ih (fun x hx => hp x (by simp [hx]))
    simp only [List.cons_append]
    rw [globMatch]
    simp [hc.1, hc.2, ih']

/-- When every element of the first list fails the predicate, `find?` over
an append searches only the second list. -/
theorem find?_append_of_false {α : Type} (l₁ l₂ : List α) (p : α → Bool)
    (h : ∀ x ∈ l₁, p x = false) : (l₁ ++ l₂).find? p = l₂.find? p := by
  induction l₁ with
  | nil => rfl
  | cons a t ih =>
    simp only [List.cons_append, List.find?]
    rw [h a (by simp)]
    exact ih (fun x hx => h x (by simp [hx]))

/-- C6 counterexample: with the backing store unreachable, `get_entity`
returns exactly the same result (`None`) as a reachable store in which the
entity is absent, so the claimed retrieve-side distinction between
"store unreachable" and "entity absent" fails at this concrete input.
Only `store_entity` raises the distinguished 503. -/
theorem get_entity_unreachable_conflated_with_absent :
    get_entity none 0 "orders" "x1" = get_entity (some []) 0 "orders" "x1" ∧
    get_entity none 0 "orders" "x1" = none ∧
    store_entity none 0 "gid" "t0" "orders" (JsonVal.obj [("qty", JsonVal.int 1)])
      = Except.error (503, "Redis not available") :=
  ⟨rfl, rfl, rfl⟩

/-- Amended C6: when the backing store is unreachable, `create` surfaces
the distinguished 503 service-unavailable error, but `retrieve` returns
`None` — the same value as for an absent entity — so only the create side
distinguishes "store unreachable" from "entity absent". -/
theorem store_entity_unavailable_distinction (now : Nat)
    (new_id created_at entity_name entity_id : String) (data : JsonVal) :
    store_entity none now new_id created_at entity_name data
      = Except.error (503, "Redis not available") ∧
    get_entity none now entity_name entity_id = none :=
  ⟨rfl, rfl⟩

/-- C7: `store_entity` on a reachable store returns the generated id and
stores the metadata-wrapped record under `"{entity_name}.{id}"` with the
fixed 3600-second TTL; before expiry `get_entity` returns exactly the
wrapped record and it appears in `list_entities`; from expiry on,
`get_entity` returns `None` and `list_entities` is exactly what it was
before the create.  The generated id is an oracle input, assumed fresh
(`hfresh`), and the entity name is assumed free of the glob wildcards
`*`/`?` (the only characters the key-scan pattern treats specially). -/
theorem store_entity_lifecycle
    (st : RedisStore) (now : Nat) (new_id created_at entity_name : String)
    (data : JsonVal)
    (hfresh : ∀ e ∈ st, e.key ≠ entity_name ++ "." ++ new_id)
    (hname : ∀ c ∈ entity_name.data, c ≠ '*' ∧ c ≠ '?') :
    store_entity (some st) now new_id created_at entity_name data
      = Except.ok (new_id,
          setex st (entity_name ++ "." ++ new_id) (now + 3600)
            (entityRecord new_id entity_name created_at data)) ∧
    (∀ t, t < now + 3600 →
      get_entity (some (setex st (entity_name ++ "." ++ new_id) (now + 3600)
          (entityRecord new_id entity_name created_at data))) t
          entity_name new_id
        = some (entityRecord new_id entity_name created_at data)) ∧
    (∀ t, now + 3600 ≤ t →
      get_entity (some (setex st (entity_name ++ "." ++ new_id) (now + 3600)
          (entityRecord new_id entity_name created_at data))) t
          entity_name new_id = none) ∧
    (∀ t, t < now + 3600 →
      entityRecord new_id entity_name created_at data ∈
        list_entities (some (setex st (entity_name ++ "." ++ new_id)
          (now + 3600) (entityRecord new_id entity_name created_at data))) t
          entity_name) ∧
    (∀ t, now + 3600 ≤ t →
      list_entities (some (setex st (entity_name ++ "." ++ new_id)
          (now + 3600) (entityRecord new_id entity_name created_at data))) t
          entity_name
        = list_entities (some st) t entity_name) := by
  have hfilter : st.filter
      (fun e => !(e.key == entity_name ++ "." ++ new_id)) = st := by
    apply List.filter_eq_self.mpr
    intro e he
    simp [hfresh e he]
  have hnone : ∀ (t : Nat), (st.filter
        (fun e => !(e.key == entity_name ++ "." ++ new_id))).find?
        (fun e => e.key == entity_name ++ "." ++ new_id && liveAt t e)
      = none := by
    intro t
    apply List.find?_eq_none.mpr
    intro e he
    have he' : e ∈ st := List.mem_of_mem_filter he
    simp [hfresh e he']
  refine ⟨rfl, ?_, ?_, ?_, ?_⟩
  · intro t ht
    simp only [get_entity, redisGet, setex]
    rw [find?_append_of_false]
    · simp [List.find?, liveAt, ht]
    · intro e he
      have he' : e ∈ st := List.mem_of_mem_filter he
      simp [hfresh e he']
  · intro t ht
    simp only [get_entity, redisGet, setex]
    rw [find?_append_of_false]
    · simp [List.find?, liveAt, Nat.not_lt.mpr ht]
    · intro e he
      have he' : e ∈ st := List.mem_of_mem_filter he
      simp [hfresh e he']
  · intro t ht
    have hglob : globMatch (entity_name ++ ".*").data
        (entity_name ++ "." ++ new_id).data = true := by
      have h1 : (entity_name ++ ".*").data
          = (entity_name.data ++ ['.']) ++ ['*'] := by
        simp [String.data_append]
      have h2 : (entity_name ++ "." ++ new_id).data
          = (entity_name.data ++ ['.']) ++ new_id.data := by
        simp [String.data_append]
      rw [h1, h2, globMatch_lit_append]
      · exact globMatch_star_any _
      · intro c hc
        rcases List.mem_append.mp hc with h | h
        · exact hname c h
        · simp only [List.mem_singleton] at h
          subst h
          exact ⟨by decide, by decide⟩
    simp only [list_entities, setex]
    apply List.mem_map.mpr
    refine ⟨⟨entity_name ++ "." ++ new_id,
      entityRecord new_id entity_name created_at data, now + 3600⟩, ?_, rfl⟩
    apply List.mem_filter.mpr
    refine ⟨List.mem_append_right _ (by simp), ?_⟩
    rw [Bool.and_eq_true]
    exact ⟨hglob, by simp [liveAt, ht]⟩
  · intro t ht
    simp only [list_entities, setex, List.filter_append, List.map_append]
    have hdead : liveAt t
        (⟨entity_name ++ "." ++ new_id,
          entityRecord new_id entity_name created_at data, now + 3600⟩ :
          RedisEntry) = false := by
      simp [liveAt, Nat.not_lt.mpr ht]
    simp [hdead, hfilter]

/-- Witness for the C7 lifecycle at a concrete instance: storing
`{"qty": 1}` as an `orders` entity at time 0 with generated id `gid`. -/
theorem store_entity_lifecycle_witness :
    store_entity (some []) 0 "gid" "t0" "orders" (JsonVal.obj [("qty", JsonVal.int 1)])
      = Except.ok ("gid",
          setex [] ("orders" ++ "." ++ "gid") 3600
            (entityRecord "gid" "orders" "t0" (JsonVal.obj [("qty", JsonVal.int 1)]))) ∧
    get_entity (some (setex [] ("orders" ++ "." ++ "gid") 3600
        (entityRecord "gid" "orders" "t0" (JsonVal.obj [("qty", JsonVal.int 1)])))) 10
        "orders" "gid"
      = some (entityRecord "gid" "orders" "t0" (JsonVal.obj [("qty", JsonVal.int 1)])) ∧
    get_entity (some (setex [] ("orders" ++ "." ++ "gid") 3600
        (entityRecord "gid" "orders" "t0" (JsonVal.obj [("qty", JsonVal.int 1)])))) 3600
        "orders" "gid" = none := by
  have h := store_entity_lifecycle [] 0 "gid" "t0" "orders"
    (JsonVal.obj [("qty", JsonVal.int 1)])
    (by intro e he; cases he)
    (by decide)
  exact ⟨by simpa using h.1, h.2.1 10 (by decide), h.2.2.1 3600 (by decide)⟩

/-! ### Retrieve-action dispatch (`src/handlers/routes.py` lines 199-225) -/

/-- Python truthiness of an optional string: `None` and the empty string
are falsy. -/
def strTruthy : Option String → Bool
  | none => false
  | some s => !(s == "")

/-- Python `a or b` on two optional strings: the second operand when the
first is falsy. -/
def pyOrStr (a b : Option String) : Option String :=
  if strTruthy a then a else b

/-- Substring containment over character lists, the model of Python's
`x in s` on strings. -/
def hasInfix (needle : List Char) : List Char → Bool
  | [] => needle.isEmpty
  | c :: t => needle.isPrefixOf (c :: t) || hasInfix needle t

/-- Python `str.title()`: the first letter of each alphabetic run is
upper-cased and the rest lower-cased. -/
def pyTitleAux (prevAlpha : Bool) : List Char → List Char
  | [] => []
  | c :: t =>
    let c' := if c.isAlpha then (if prevAlpha then c.toLower else c.toUpper)
      else c
    c' :: pyTitleAux c.isAlpha t

/-- Python `str.title()` on a string. -/
def pyTitle (s : String) : String :=
  (pyTitleAux false s.data).asString

/-- Model of the entity-id extraction in `create_handler`'s retrieve branch
(routes.py lines 200-215): the config path is probed for the four
hard-coded parameter names in order, then the generic fallback
`path_params.get("id") or path_params.get("entity_id")`. -/
def extract_entity_id (config_path : String)
    (path_params : List (String × String)) : Option String :=
  if hasInfix "\x7bproduct_id\x7d".data config_path.data then
    alistFind path_params "product_id"
  else if hasInfix "\x7bcustomer_id\x7d".data config_path.data then
    alistFind path_params "customer_id"
  else if hasInfix "\x7border_id\x7d".data config_path.data then
    alistFind path_params "order_id"
  else if hasInfix "\x7bitem_id\x7d".data config_path.data then
    alistFind path_params "item_id"
  else
    pyOrStr (alistFind path_params "id") (alistFind path_params "entity_id")

/-- Model of the retrieve branch of `create_handler` (routes.py lines
199-225): status code and JSON payload returned for a GET on an endpoint
whose persistence action is `retrieve`. -/
def retrieve_dispatch (conn : Option RedisStore) (now : Nat)
    (entity_name : String) (config_path : String)
    (path_params : List (String × String)) : Nat × JsonVal :=
  let entity_id := extract_entity_id config_path path_params
  if strTruthy entity_id then
    match get_entity conn now entity_name (entity_id.getD "") with
    | some e => (200, e)
    | none => (404, JsonVal.obj
        [("error", JsonVal.str (pyTitle entity_name ++ " not found")),
         ("id", JsonVal.str (entity_id.getD ""))])
  else
    (400, JsonVal.obj [("error", JsonVal.str "Missing entity ID in path")])

/-- C8 counterexample: the claim says any path-parameter name ending in
`_id` works, but for the path `/users/{user_id}` with parameter
`user_id = "42"` no id is extracted (only `product_id`, `customer_id`,
`order_id`, `item_id`, `id` and `entity_id` are consulted), so the handler
answers 400 even though the entity is present in the store. -/
theorem retrieve_user_id_not_extracted :
    extract_entity_id "/users/\x7buser_id\x7d" [("user_id", "42")] = none ∧
    (retrieve_dispatch
      (some [⟨"users.42", entityRecord "42" "users" "t0" (JsonVal.obj []), 100⟩])
      0 "users" "/users/\x7buser_id\x7d" [("user_id", "42")]).1 = 400 := by
  constructor
  · rfl
  · rfl

/-- Amended C8: the retrieve handler extracts the entity id only for the
hard-coded parameter names `product_id`, `customer_id`, `order_id`,
`item_id` (probed against the configured path, in that order) and the
generic fallbacks `id` and `entity_id`; when a truthy id is extracted it
returns 200 with the stored entity if present and 404 if absent, and when
no truthy id is extracted (including any other `_id`-suffixed name) it
returns 400. -/
theorem retrieve_dispatch_characterization
    (conn : Option RedisStore) (now : Nat) (entity_name config_path : String)
    (path_params : List (String × String)) :
    (strTruthy (extract_entity_id config_path path_params) = true →
      (∀ e, get_entity conn now entity_name
          ((extract_entity_id config_path path_params).getD "") = some e →
        retrieve_dispatch conn now entity_name config_path path_params
          = (200, e)) ∧
      (get_entity conn now entity_name
          ((extract_entity_id config_path path_params).getD "") = none →
        (retrieve_dispatch conn now entity_name config_path path_params).1
          = 404)) ∧
    (strTruthy (extract_entity_id config_path path_params) = false →
      (retrieve_dispatch conn now entity_name config_path path_params).1
        = 400) ∧
    (hasInfix "\x7bproduct_id\x7d".data config_path.data = true →
      extract_entity_id config_path path_params
        = alistFind path_params "product_id") := by
  refine ⟨?_, ?_, ?_⟩
  · intro htru
    constructor
    · intro e he
      simp [retrieve_dispatch, htru, he]
    · intro he
      simp [retrieve_dispatch, htru, he]
  · intro hf
    simp [retrieve_dispatch, hf]
  · intro hp
    simp [extract_entity_id, hp]

/-- Witness for the amended C8 at a concrete instance: a `product_id`
path parameter retrieves the stored entity with status 200. -/
theorem retrieve_dispatch_characterization_witness :
    retrieve_dispatch
      (some [⟨"products.42", entityRecord "42" "products" "t0" (JsonVal.obj []), 100⟩])
      0 "products" "/products/\x7bproduct_id\x7d" [("product_id", "42")]
      = (200, entityRecord "42" "products" "t0" (JsonVal.obj [])) := by
  have h := retrieve_dispatch_characterization
    (some [⟨"products.42", entityRecord "42" "products" "t0" (JsonVal.obj []), 100⟩])
    0 "products" "/products/\x7bproduct_id\x7d" [("product_id", "42")]
  exact (h.1 (by rfl)).1 _ (by rfl)

/-! ### Auth placeholder resolver (`src/auth/security.py` lines 49-154)

The global `_auth_resolution_cache` is threaded explicitly: every resolver
function takes and returns a `Cache`.  `clear_auth_resolution_cache` (the
first statement of every generated handler) corresponds to starting from
the empty cache.  `random.choice` is modelled by an oracle index per cache
key (`Oracle.pick`), reduced modulo the candidate-list length. -/

/-- A configured vManage session record. -/
structure Session where
  session_id : String
  csrf_token : String
  username : String
deriving Repr, DecidableEq

/-- Configuration of one authentication method; fields the Python code
reads with `dict.get` defaults are defaulted the same way.  The
`session_cookie` field is `none` when the config omits it (the readers
default it to `"JSESSIONID"`). -/
structure MethodCfg where
  valid_keys : List String := []
  valid_credentials : List (String × String) := []
  valid_tokens : List String := []
  valid_sessions : List Session := []
  session_cookie : Option String := none
deriving Repr, DecidableEq

/-- The `authentication_methods` table of the auth configuration.  A
method that is absent — or whose config dict is empty, which Python's
`if not method_config` treats identically — is modelled as a missing
entry. -/
structure AuthConfig where
  authentication_methods : List (String × MethodCfg)
deriving Repr, DecidableEq

/-- Lookup of one method's configuration. -/
def lookupMethod (cfg : AuthConfig) (m : String) : Option MethodCfg :=
  alistFind cfg.authentication_methods m

/-- Request context as built by `extract_request_context`: the presented
session id when one was found (`{"session_id": sid}`), otherwise the empty
dict (`session_id := none`). -/
structure RequestContext where
  session_id : Option String
deriving Repr, DecidableEq

/-- Python truthiness of the optional request-context dict: `None` and the
empty dict are falsy. -/
def ctxTruthy : Option RequestContext → Bool
  | none => false
  | some rc => rc.session_id.isSome

/-- A value cached under a `"{method}.{selector}"` key: a session record
(for `random_session`) or a key string (for `random_key`). -/
inductive CacheVal where
  | sess (s : Session)
  | strv (v : String)
deriving Repr, DecidableEq

/-- The request-cycle resolution cache. -/
abbrev Cache := List (String × CacheVal)

/-- Oracle for the nondeterminism of one resolution pass: the
`random.choice` index used the first time each cache key is populated, and
the strings produced by the UUID/timestamp generators. -/
structure Oracle where
  pick : String → Nat
  genUuid : String := ""
  genCurrentTs : String := ""
  genTs : String := ""
  genDate : String := ""
  genUnixTs : String := ""
  genUnixTsMs : String := ""

/-- Model of `random.choice` on a non-empty list, driven by an oracle
index. -/
def pyChoice {α : Type} (l : List α) (n : Nat) (h : l ≠ []) : α :=
  l.get ⟨n % l.length, Nat.mod_lt _ (List.length_pos.mpr h)⟩

/-- Left and right curly-brace characters, kept symbolic. -/
def lbrace : Char := Char.ofNat 123

def rbrace : Char := Char.ofNat 125

/-- Python `str()` of a session dict, returned by the `random_session`
branch for an unknown property name. -/
def reprSession (s : Session) : String :=
  "\x7b'session_id': '" ++ s.session_id ++ "', 'csrf_token': '"
    ++ s.csrf_token ++ "', 'username': '" ++ s.username ++ "'\x7d"

/-- Property projection of the `random_session` branch (security.py lines
120-127): the three known properties select a field, anything else returns
`str(random_session)`. -/
def projSession (s : Session) (property : Option String) : String :=
  match property with
  | some "session_id" => s.session_id
  | some "csrf_token" => s.csrf_token
  | some "username" => s.username
  | _ => reprSession s

/-- Property projection of the `current_session` branch (security.py lines
101-106): only the three known properties return; an unknown property
makes the Python loop fall through, leaving the placeholder as-is.  (The
loop scans sessions in order; since the property dispatch is the same for
every matching session, taking the first session with the matching id is
equivalent.) -/
def projCurrent (s : Session) (property : Option String) : Option String :=
  match property with
  | some "session_id" => some s.session_id
  | some "csrf_token" => some s.csrf_token
  | some "username" => some s.username
  | _ => none

/-- Model of the `replace_placeholder` closure (security.py lines 79-140),
acting on one parsed `${auth.<method>.<selector>[.<property>]}` token.
Returns the replacement text and the updated cache. -/
def replace_placeholder (cfg : Option AuthConfig) (ctx : Option RequestContext)
    (rnd : Oracle) (cache : Cache) (method selector : String)
    (property : Option String) (orig : String) : String × Cache :=
  match cfg with
  | none => (orig, cache)
  | some ac =>
    match lookupMethod ac method with
    | none => (orig, cache)
    | some mcfg =>
      if method = "vmanage_session" then
        if selector = "current_session" ∧ ctxTruthy ctx = true then
          let cur : Option String :=
            match ctx with
            | some rc => rc.session_id
            | none => none
          if strTruthy cur then
            match mcfg.valid_sessions.find?
                (fun s => s.session_id == cur.getD "") with
            | some s =>
              match projCurrent s property with
              | some v => (v, cache)
              | none => (orig, cache)
            | none => (orig, cache)
          else (orig, cache)
        else if selector = "random_session" then
          let ckey := method ++ "." ++ selector
          match alistFind cache ckey with
          | some (CacheVal.sess s) => (projSession s property, cache)
          | some (CacheVal.strv _) => (orig, cache)
          | none =>
            if h : mcfg.valid_sessions = [] then (orig, cache)
            else
              let s := pyChoice mcfg.valid_sessions (rnd.pick ckey) h
              (projSession s property, (ckey, CacheVal.sess s) :: cache)
        else (orig, cache)
      else if selector = "random_key" then
        let ckey := method ++ "." ++ selector
        match alistFind cache ckey with
        | some (CacheVal.strv v) => (v, cache)
        | some (CacheVal.sess s) => (reprSession s, cache)
        | none =>
          if h : mcfg.valid_keys = [] then (orig, cache)
          else
            let k := pyChoice mcfg.valid_keys (rnd.pick ckey) h
            (k, (ckey, CacheVal.strv k) :: cache)
      else (orig, cache)

/-- Parser for one occurrence of the placeholder regex
`\$\{auth\.([^.]+)\.([^.}]+)(?:\.([^}]+))?\}` anchored at the head of the
input.  Returns the three groups, the matched text, and the rest of the
input after the match.  The regex groups are deterministic here: `[^.]+`
is the maximal dot-free run (backtracking cannot shorten it), `[^.}]+`
the maximal run free of dots and closing braces, `[^}]+` the maximal
brace-free run. -/
def tryParsePlaceholder : List Char →
    Option (String × String × Option String × List Char × List Char)
  | '$' :: c1 :: 'a' :: 'u' :: 't' :: 'h' :: '.' :: rest =>
    if c1 = lbrace then
      let g1 := rest.takeWhile (fun c => !(c == '.'))
      let r1 := rest.dropWhile (fun c => !(c == '.'))
      if g1.isEmpty then none
      else
        match r1 with
        | '.' :: r2 =>
          let g2 := r2.takeWhile (fun c => !(c == '.') && !(c == rbrace))
          let r3 := r2.dropWhile (fun c => !(c == '.') && !(c == rbrace))
          if g2.isEmpty then none
          else
            match r3 with
            | c2 :: r4 =>
              if c2 = rbrace then
                some (g1.asString, g2.asString, none,
                  '$' :: c1 :: 'a' :: 'u' :: 't' :: 'h' :: '.' ::
                    (g1 ++ '.' :: g2 ++ [c2]), r4)
              else if c2 = '.' then
                let g3 := r4.takeWhile (fun c => !(c == rbrace))
                let r5 := r4.dropWhile (fun c => !(c == rbrace))
                if g3.isEmpty then none
                else
                  match r5 with
                  | c3 :: r6 =>
                    if c3 = rbrace then
                      some (g1.asString, g2.asString, some g3.asString,
                        '$' :: c1 :: 'a' :: 'u' :: 't' :: 'h' :: '.' ::
                          (g1 ++ '.' :: g2 ++ c2 :: g3 ++ [c3]), r6)
                    else none
                  | [] => none
              else none
            | [] => none
        | _ => none
    else none
  | _ => none

/-- The scanning loop of `re.sub` over one string: at each position try
the placeholder pattern; on a match emit the replacement and continue
after the matched text, otherwise copy one character.  Fuel-structured so
that it reduces computationally; `length + 1` fuel always suffices since
every step consumes at least one character. -/
def scanAuth (cfg : Option AuthConfig) (ctx : Option RequestContext)
    (rnd : Oracle) : Nat → Cache → List Char → (List Char × Cache)
  | 0, cache, l => (l, cache)
  | _ + 1, cache, [] => ([], cache)
  | fuel + 1, cache, c :: rest =>
    match tryParsePlaceholder (c :: rest) with
    | some (m, sel, prop, matched, after) =>
      let rc := replace_placeholder cfg ctx rnd cache m sel prop
        matched.asString
      let out := scanAuth cfg ctx rnd fuel rc.2 after
      (rc.1.data ++ out.1, out.2)
    | none =>
      let out := scanAuth cfg ctx rnd fuel cache rest
      (c :: out.1, out.2)

/-- The literal `"${auth."` marker whose presence gates the regex pass
(security.py line 75). -/
def authMarker : String := "$\x7bauth."

/-- Model of `resolve_auth_placeholders` on a string value (security.py
lines 75-144). -/
def resolve_auth_placeholders_str (cfg : Option AuthConfig)
    (ctx : Option RequestContext) (rnd : Oracle) (cache : Cache) (s : String) :
    String × Cache :=
  if hasInfix authMarker.data s.data then
    let out := scanAuth cfg ctx rnd (s.data.length + 1) cache s.data
    (out.1.asString, out.2)
  else (s, cache)

mutual

/-- Model of `resolve_auth_placeholders` on an arbitrary JSON value
(security.py lines 59-154): strings are scanned, dicts and lists are
walked recursively (threading the process-global cache), other values
pass through. -/
def resolveAuthVal (cfg : Option AuthConfig) (ctx : Option RequestContext)
    (rnd : Oracle) : Cache → JsonVal → JsonVal × Cache
  | cache, JsonVal.str s =>
    let r := resolve_auth_placeholders_str cfg ctx rnd cache s
    (JsonVal.str r.1, r.2)
  | cache, JsonVal.obj kvs =>
    let r := resolveAuthObj cfg ctx rnd cache kvs
    (JsonVal.obj r.1, r.2)
  | cache, JsonVal.arr xs =>
    let r := resolveAuthArr cfg ctx rnd cache xs
    (JsonVal.arr r.1, r.2)
  | cache, v => (v, cache)

def resolveAuthObj (cfg : Option AuthConfig) (ctx : Option RequestContext)
    (rnd : Oracle) : Cache → List (String × JsonVal) →
    List (String × JsonVal) × Cache
  | cache, [] => ([], cache)
  | cache, (k, v) :: rest =>
    let r := resolveAuthVal cfg ctx rnd cache v
    let rr := resolveAuthObj cfg ctx rnd r.2 rest
    ((k, r.1) :: rr.1, rr.2)

def resolveAuthArr (cfg : Option AuthConfig) (ctx : Option RequestContext)
    (rnd : Oracle) : Cache → List JsonVal → List JsonVal × Cache
  | cache, [] => ([], cache)
  | cache, v :: rest =>
    let r := resolveAuthVal cfg ctx rnd cache v
    let rr := resolveAuthArr cfg ctx rnd r.2 rest
    (r.1 :: rr.1, rr.2)

end

/-- Model of `process_response_headers` (templates.py lines 137-143):
every header value goes through the auth-placeholder pass only, and the
call never passes a request context (`resolve_auth_placeholders(value,
auth_config)` leaves `request_context` at its `None` default). -/
def process_response_headers (cfg : Option AuthConfig) (rnd : Oracle)
    (cache : Cache) (headers : List (String × JsonVal)) :
    List (String × JsonVal) × Cache :=
  resolveAuthObj cfg none rnd cache headers

/-- Token strings used by the vmanage_session placeholder claims. -/
def tokRandomSessionSid : String :=
  "$\x7bauth.vmanage_session.random_session.session_id\x7d"

def tokRandomSessionCsrf : String :=
  "$\x7bauth.vmanage_session.random_session.csrf_token\x7d"

def tokRandomSessionUser : String :=
  "$\x7bauth.vmanage_session.random_session.username\x7d"

def tokCurrentSessionCsrf : String :=
  "$\x7bauth.vmanage_session.current_session.csrf_token\x7d"

/-- Scanning the empty input returns it unchanged under any fuel. -/
theorem scanAuth_nil (cfg : Option AuthConfig) (ctx : Option RequestContext)
    (o : Oracle) (f : Nat) (cache : Cache) :
    scanAuth cfg ctx o f cache [] = ([], cache) := by
  cases f <;> rfl

/-- When the placeholder pattern matches the whole input, the scan is a
single replacement. -/
theorem scanAuth_whole (cfg : Option AuthConfig) (ctx : Option RequestContext)
    (o : Oracle) (fuel : Nat) (cache : Cache) (l : List Char)
    (m sel : String) (prop : Option String) (matched : List Char)
    (hp : tryParsePlaceholder l = some (m, sel, prop, matched, []))
    (hl : l ≠ []) :
    scanAuth cfg ctx o (fuel + 1) cache l
      = ((replace_placeholder cfg ctx o cache m sel prop matched.asString).1.data,
         (replace_placeholder cfg ctx o cache m sel prop matched.asString).2) := by
  cases l with
  | nil => exact absurd rfl hl
  | cons c rest =>
    simp only [scanAuth, hp, scanAuth_nil, List.append_nil]

/-- Rebuilding a string from its character data. -/
theorem asString_data (s : String) : s.data.asString = s :=
  String.asString_toList s

/-- A fresh resolution cycle on a random_session token: the oracle's
choice is cached under `"vmanage_session.random_session"` and the
requested property of that one session is returned. -/
theorem resolve_random_session_fresh
    (cfg : AuthConfig) (mc : MethodCfg)
    (hlk : lookupMethod cfg "vmanage_session" = some mc)
    (hne : mc.valid_sessions ≠ [])
    (ctx : Option RequestContext) (o : Oracle) (tok : String) (prop : String)
    (hp : tryParsePlaceholder tok.data
      = some ("vmanage_session", "random_session", some prop, tok.data, []))
    (hinf : hasInfix authMarker.data tok.data = true) :
    resolve_auth_placeholders_str (some cfg) ctx o [] tok
      = (projSession (pyChoice mc.valid_sessions
            (o.pick "vmanage_session.random_session") hne) (some prop),
         [("vmanage_session.random_session",
           CacheVal.sess (pyChoice mc.valid_sessions
             (o.pick "vmanage_session.random_session") hne))]) := by
  have hl : tok.data ≠ [] := by
    intro h
    rw [h] at hp
    exact absurd hp (by simp [tryParsePlaceholder])
  simp only [resolve_auth_placeholders_str, if_pos hinf]
  rw [scanAuth_whole _ _ _ _ _ _ _ _ _ _ hp hl]
  simp only [replace_placeholder, hlk]
  simp [alistFind, hne, asString_data]

/-- Character data of a rebuilt string. -/
theorem data_asString (l : List Char) : l.asString.data = l :=
  List.toList_asString l

/-- A cached random_session choice answers every later property lookup in
the same cycle from the cached record, leaving the cache unchanged. -/
theorem resolve_random_session_cached
    (cfg : AuthConfig) (mc : MethodCfg)
    (hlk : lookupMethod cfg "vmanage_session" = some mc)
    (ctx : Option RequestContext) (o : Oracle) (s : Session)
    (tok : String) (prop : String)
    (hp : tryParsePlaceholder tok.data
      = some ("vmanage_session", "random_session", some prop, tok.data, []))
    (hinf : hasInfix authMarker.data tok.data = true) :
    resolve_auth_placeholders_str (some cfg) ctx o
        [("vmanage_session.random_session", CacheVal.sess s)] tok
      = (projSession s (some prop),
         [("vmanage_session.random_session", CacheVal.sess s)]) := by
  have hl : tok.data ≠ [] := by
    intro h
    rw [h] at hp
    exact absurd hp (by simp [tryParsePlaceholder])
  simp only [resolve_auth_placeholders_str, if_pos hinf]
  rw [scanAuth_whole _ _ _ _ _ _ _ _ _ _ hp hl]
  simp only [replace_placeholder, hlk]
  simp [alistFind, asString_data]

/-- With no request context (as in header processing), a current_session
placeholder is left as the original literal even when sessions are
configured; the cache is untouched. -/
theorem resolve_current_session_no_ctx
    (cfg : AuthConfig) (mc : MethodCfg)
    (hlk : lookupMethod cfg "vmanage_session" = some mc)
    (o : Oracle) (cache : Cache) :
    resolve_auth_placeholders_str (some cfg) none o cache
        tokCurrentSessionCsrf = (tokCurrentSessionCsrf, cache) := by
  have hp : tryParsePlaceholder tokCurrentSessionCsrf.data
      = some ("vmanage_session", "current_session", some "csrf_token",
          tokCurrentSessionCsrf.data, []) := by decide
  simp only [resolve_auth_placeholders_str,
    if_pos (show hasInfix authMarker.data tokCurrentSessionCsrf.data = true
      from by decide)]
  rw [scanAuth_whole _ _ _ _ _ _ _ _ _ _ hp (by decide)]
  simp only [replace_placeholder, hlk]
  simp [ctxTruthy, asString_data, data_asString]

/-- C1: within one request cycle (which starts from a cleared resolution
cache) all random_session property lookups resolve from one and the same
session record — the first lookup's `random.choice` result, cached under
`"vmanage_session.random_session"`; a later cycle again starts from the
empty cache, so its (independent) oracle choice governs it, and every
configured session is reachable by some oracle. -/
theorem random_session_cycle_consistency
    (cfg : AuthConfig) (mc : MethodCfg)
    (hlk : lookupMethod cfg "vmanage_session" = some mc)
    (hne : mc.valid_sessions ≠ [])
    (ctx : Option RequestContext) (o o2 : Oracle) :
    ∃ s ∈ mc.valid_sessions,
      s = pyChoice mc.valid_sessions
        (o.pick "vmanage_session.random_session") hne ∧
      resolve_auth_placeholders_str (some cfg) ctx o [] tokRandomSessionSid
        = (s.session_id,
           [("vmanage_session.random_session", CacheVal.sess s)]) ∧
      resolve_auth_placeholders_str (some cfg) ctx o
          [("vmanage_session.random_session", CacheVal.sess s)]
          tokRandomSessionCsrf
        = (s.csrf_token,
           [("vmanage_session.random_session", CacheVal.sess s)]) ∧
      resolve_auth_placeholders_str (some cfg) ctx o
          [("vmanage_session.random_session", CacheVal.sess s)]
          tokRandomSessionUser
        = (s.username,
           [("vmanage_session.random_session", CacheVal.sess s)]) ∧
      (resolve_auth_placeholders_str (some cfg) ctx o2 [] tokRandomSessionSid).1
        = (pyChoice mc.valid_sessions
            (o2.pick "vmanage_session.random_session") hne).session_id ∧
      (∀ s' ∈ mc.valid_sessions, ∃ o3 : Oracle,
        (resolve_auth_placeholders_str (some cfg) ctx o3 []
          tokRandomSessionSid).1 = s'.session_id) := by
  refine ⟨pyChoice mc.valid_sessions
    (o.pick "vmanage_session.random_session") hne,
    List.get_mem _ _ _, rfl, ?_, ?_, ?_, ?_, ?_⟩
  · have h := resolve_random_session_fresh cfg mc hlk hne ctx o
      tokRandomSessionSid "session_id" (by decide) (by decide)
    simpa [projSession] using h
  · have h := resolve_random_session_cached cfg mc hlk ctx o
      (pyChoice mc.valid_sessions (o.pick "vmanage_session.random_session") hne)
      tokRandomSessionCsrf "csrf_token" (by decide) (by decide)
    simpa [projSession] using h
  · have h := resolve_random_session_cached cfg mc hlk ctx o
      (pyChoice mc.valid_sessions (o.pick "vmanage_session.random_session") hne)
      tokRandomSessionUser "username" (by decide) (by decide)
    simpa [projSession] using h
  · have h := resolve_random_session_fresh cfg mc hlk hne ctx o2
      tokRandomSessionSid "session_id" (by decide) (by decide)
    simp [h, projSession]
  · intro s' hs'
    obtain ⟨i, hi⟩ := List.mem_iff_get.mp hs'
    refine ⟨{ pick := fun _ => i.val }, ?_⟩
    have h := resolve_random_session_fresh cfg mc hlk hne ctx
      { pick := fun _ => i.val } tokRandomSessionSid "session_id"
      (by decide) (by decide)
    have hmod : i.val % mc.valid_sessions.length = i.val :=
      Nat.mod_eq_of_lt i.isLt
    have hpc : pyChoice mc.valid_sessions i.val hne = s' := by
      rw [← hi]
      show mc.valid_sessions.get _ = mc.valid_sessions.get i
      congr 1
      exact Fin.ext hmod
    rw [h]
    show projSession (pyChoice mc.valid_sessions i.val hne)
      (some "session_id") = s'.session_id
    rw [hpc]
    simp [projSession]

/-- Example auth configuration with two vManage sessions. -/
def cfgEx : AuthConfig :=
  ⟨[("vmanage_session",
    { valid_sessions := [⟨"sid1", "tok1", "alice"⟩, ⟨"sid2", "tok2", "bob"⟩] })]⟩

/-- Oracle that always picks index 0. -/
def oPick0 : Oracle := { pick := fun _ => 0 }

/-- Witness for C1 at a concrete configuration: with two sessions and the
index-0 oracle, the session_id lookup caches the first session and the
csrf_token lookup in the same cycle answers from the same record. -/
theorem random_session_cycle_consistency_witness :
    resolve_auth_placeholders_str (some cfgEx) none oPick0 []
        tokRandomSessionSid
      = ("sid1", [("vmanage_session.random_session",
          CacheVal.sess ⟨"sid1", "tok1", "alice"⟩)]) ∧
    resolve_auth_placeholders_str (some cfgEx) none oPick0
        [("vmanage_session.random_session",
          CacheVal.sess ⟨"sid1", "tok1", "alice"⟩)] tokRandomSessionCsrf
      = ("tok1", [("vmanage_session.random_session",
          CacheVal.sess ⟨"sid1", "tok1", "alice"⟩)]) := by
  obtain ⟨s, hmem, hs, h1, h2, h3, h4, h5⟩ :=
    random_session_cycle_consistency cfgEx
      { valid_sessions := [⟨"sid1", "tok1", "alice"⟩, ⟨"sid2", "tok2", "bob"⟩] }
      (by rfl) (by decide) none oPick0 oPick0
  have hs' : s = ⟨"sid1", "tok1", "alice"⟩ := by rw [hs]; rfl
  rw [hs'] at h1 h2
  exact ⟨h1, h2⟩

/-- C10: header values go through the auth-placeholder pass only and
always without a request context, so a current_session token in a header
is returned as the literal token even when matching sessions are
configured, while a random_session token in a header still resolves (to
the cycle's cached choice). -/
theorem headers_current_session_unresolved
    (cfg : AuthConfig) (mc : MethodCfg)
    (hlk : lookupMethod cfg "vmanage_session" = some mc)
    (hne : mc.valid_sessions ≠ [])
    (o : Oracle) (k k2 : String) (cache : Cache) :
    process_response_headers (some cfg) o cache
        [(k, JsonVal.str tokCurrentSessionCsrf)]
      = ([(k, JsonVal.str tokCurrentSessionCsrf)], cache) ∧
    (process_response_headers (some cfg) o []
        [(k2, JsonVal.str tokRandomSessionCsrf)]).1
      = [(k2, JsonVal.str (pyChoice mc.valid_sessions
          (o.pick "vmanage_session.random_session") hne).csrf_token)] := by
  constructor
  · simp only [process_response_headers, resolveAuthObj, resolveAuthVal]
    rw [resolve_current_session_no_ctx cfg mc hlk]
  · simp only [process_response_headers, resolveAuthObj, resolveAuthVal]
    rw [resolve_random_session_fresh cfg mc hlk hne none o
      tokRandomSessionCsrf "csrf_token" (by decide) (by decide)]
    simp [projSession]

/-- Witness for C10 at a concrete configuration: the current_session
token survives header processing verbatim while the random_session token
resolves to the chosen session's csrf_token. -/
theorem headers_current_session_unresolved_witness :
    process_response_headers (some cfgEx) oPick0 []
        [("X-XSRF-TOKEN", JsonVal.str tokCurrentSessionCsrf)]
      = ([("X-XSRF-TOKEN", JsonVal.str tokCurrentSessionCsrf)], []) ∧
    (process_response_headers (some cfgEx) oPick0 []
        [("Set-Cookie", JsonVal.str tokRandomSessionCsrf)]).1
      = [("Set-Cookie", JsonVal.str "tok1")] := by
  have h := headers_current_session_unresolved cfgEx
    { valid_sessions := [⟨"sid1", "tok1", "alice"⟩, ⟨"sid2", "tok2", "bob"⟩] }
    (by rfl) (by decide) oPick0 "X-XSRF-TOKEN" "Set-Cookie" []
  refine ⟨h.1, ?_⟩
  rw [h.2]
  rfl

/-! ### Generic template pass (`src/processing/templates.py` lines 32-134)

The six timestamp regex passes of `substitute_timestamp_templates` and the
path-parameter `re.sub` of `process_response_body` are modelled by
fuel-structured left-to-right scanners with the exact pattern semantics of
the Python regexes (all are deterministic: fixed-width digit runs, so
backtracking never changes the match).  Each generator call within a pass
is modelled by the oracle's value for that generator. -/

/-- Python regex `\w` over the ASCII range. -/
def isWordChar (c : Char) : Bool :=
  c.isAlphanum || c == '_'

/-- Generic `re.sub` scan: at each position ask the matcher (which also
sees the previous character, for word boundaries) for the rest-of-input
after a match; on a match emit the replacement and resume after it,
otherwise copy one character. -/
def reSubScan (m : Option Char → List Char → Option (List Char))
    (rep : String) : Nat → Option Char → List Char → List Char
  | 0, _, l => l
  | _ + 1, _, [] => []
  | fuel + 1, prev, c :: rest =>
    match m prev (c :: rest) with
    | some after =>
      let n := (c :: rest).length - after.length
      rep.data ++ reSubScan m rep fuel (((c :: rest).take n).getLast?) after
    | none => c :: reSubScan m rep fuel (some c) rest

/-- Full `re.sub` over a string with a constant replacement. -/
def reSub (m : Option Char → List Char → Option (List Char)) (rep : String)
    (s : String) : String :=
  (reSubScan m rep (s.data.length + 1) none s.data).asString

/-- Consume exactly `n` digits. -/
def digitsN : Nat → List Char → Option (List Char)
  | 0, l => some l
  | _ + 1, [] => none
  | n + 1, c :: l => if c.isDigit then digitsN n l else none

/-- Consume one expected character. -/
def expectChar (c : Char) : List Char → Option (List Char)
  | [] => none
  | c' :: l => if c' = c then some l else none

/-- The common `\d{4}-\d{2}-\d{2}T\d{2}:\d{2}:\d{2}` core of the ISO
patterns. -/
def matchIsoBase (l : List Char) : Option (List Char) := do
  let l ← digitsN 4 l
  let l ← expectChar '-' l
  let l ← digitsN 2 l
  let l ← expectChar '-' l
  let l ← digitsN 2 l
  let l ← expectChar 'T' l
  let l ← digitsN 2 l
  let l ← expectChar ':' l
  let l ← digitsN 2 l
  let l ← expectChar ':' l
  digitsN 2 l

/-- Pattern `\d{4}-\d{2}-\d{2}T\d{2}:\d{2}:\d{2}Z`. -/
def matchIsoZ (_prev : Option Char) (l : List Char) : Option (List Char) := do
  let l ← matchIsoBase l
  expectChar 'Z' l

/-- Pattern `\d{4}-\d{2}-\d{2}T\d{2}:\d{2}:\d{2}[+-]\d{2}:\d{2}`. -/
def matchIsoTz (_prev : Option Char) (l : List Char) : Option (List Char) := do
  let l ← matchIsoBase l
  match l with
  | c :: l' =>
    if c = '+' ∨ c = '-' then do
      let l' ← digitsN 2 l'
      let l' ← expectChar ':' l'
      digitsN 2 l'
    else none
  | [] => none

/-- Pattern `\d{4}-\d{2}-\d{2}T\d{2}:\d{2}:\d{2}` (bare). -/
def matchIsoPlain (_prev : Option Char) (l : List Char) : Option (List Char) :=
  matchIsoBase l

/-- Pattern `\d{4}-\d{2}-\d{2}(?!T)`. -/
def matchDateOnly (_prev : Option Char) (l : List Char) : Option (List Char) := do
  let l ← digitsN 4 l
  let l ← expectChar '-' l
  let l ← digitsN 2 l
  let l ← expectChar '-' l
  let l ← digitsN 2 l
  match l with
  | 'T' :: _ => none
  | _ => some l

/-- The `\b` boundary before a digit: the previous character, if any, must
not be a word character. -/
def wordBoundaryOk (prev : Option Char) : Bool :=
  match prev with
  | none => true
  | some c => !(isWordChar c)

/-- Pattern `\b\d{n}\b` for the 10- and 13-digit Unix timestamps. -/
def matchUnixN (n : Nat) (prev : Option Char) (l : List Char) :
    Option (List Char) :=
  if wordBoundaryOk prev then
    match digitsN n l with
    | some rest =>
      match rest with
      | [] => some []
      | c :: _ => if isWordChar c then none else some rest
    | none => none
  else none

/-- Model of `substitute_timestamp_templates` (templates.py lines 70-101):
the six regex passes applied in order, each replacing every match with the
corresponding generator's output. -/
def substitute_timestamp_templates (o : Oracle) (s : String) : String :=
  let r1 := reSub matchIsoZ o.genTs s
  let r2 := reSub matchIsoTz o.genTs r1
  let r3 := reSub matchIsoPlain o.genTs r2
  let r4 := reSub matchDateOnly o.genDate r3
  let r5 := reSub (matchUnixN 10) o.genUnixTs r4
  reSub (matchUnixN 13) o.genUnixTsMs r5

/-- The path-parameter token pass of `process_response_body` (templates.py
line 63): `re.sub(r"\{(\w+)\}", lambda m: f"path_param_{m.group(1)}", s)` —
every `{word}` token is rewritten to `path_param_word`. -/
def pathParamScan : Nat → List Char → List Char
  | 0, l => l
  | _ + 1, [] => []
  | fuel + 1, c :: rest =>
    if c = lbrace then
      match rest.takeWhile isWordChar, rest.dropWhile isWordChar with
      | [], _ => c :: pathParamScan fuel rest
      | w, c2 :: r2 =>
        if c2 = rbrace then
          ("path_param_".data ++ w) ++ pathParamScan fuel r2
        else c :: pathParamScan fuel rest
      | _, [] => c :: pathParamScan fuel rest
    else c :: pathParamScan fuel rest

/-- The path-parameter token pass on a string. -/
def pathParamMangle (s : String) : String :=
  (pathParamScan (s.data.length + 1) s.data).asString

/-- The exact-match template tokens of `process_response_body`. -/
def tokUuid : String := "\x7b\x7brandom_uuid\x7d\x7d"

def tokCurrentTs : String := "\x7b\x7bcurrent_timestamp\x7d\x7d"

def tokTs : String := "\x7b\x7btimestamp\x7d\x7d"

def tokDate : String := "\x7b\x7bdate\x7d\x7d"

def tokUnixTs : String := "\x7b\x7bunix_timestamp\x7d\x7d"

def tokUnixTsMs : String := "\x7b\x7bunix_timestamp_ms\x7d\x7d"

mutual

/-- Model of `process_response_body` (templates.py lines 32-67): dicts and
lists are walked recursively; a string first goes through the auth
placeholder pass, then — only if the resolved string equals one of the six
tokens exactly — is replaced wholesale by the corresponding generator
output; otherwise the timestamp-pattern passes and the path-parameter
token pass run over it. -/
def process_response_body (o : Oracle) (cfg : Option AuthConfig)
    (ctx : Option RequestContext) : Cache → JsonVal → JsonVal × Cache
  | cache, JsonVal.str s =>
    let r := resolve_auth_placeholders_str cfg ctx o cache s
    if r.1 = tokUuid then (JsonVal.str o.genUuid, r.2)
    else if r.1 = tokCurrentTs then (JsonVal.str o.genCurrentTs, r.2)
    else if r.1 = tokTs then (JsonVal.str o.genTs, r.2)
    else if r.1 = tokDate then (JsonVal.str o.genDate, r.2)
    else if r.1 = tokUnixTs then (JsonVal.str o.genUnixTs, r.2)
    else if r.1 = tokUnixTsMs then (JsonVal.str o.genUnixTsMs, r.2)
    else (JsonVal.str
      (pathParamMangle (substitute_timestamp_templates o r.1)), r.2)
  | cache, JsonVal.obj kvs =>
    let r := processBodyObj o cfg ctx cache kvs
    (JsonVal.obj r.1, r.2)
  | cache, JsonVal.arr xs =>
    let r := processBodyArr o cfg ctx cache xs
    (JsonVal.arr r.1, r.2)
  | cache, v => (v, cache)

def processBodyObj (o : Oracle) (cfg : Option AuthConfig)
    (ctx : Option RequestContext) : Cache → List (String × JsonVal) →
    List (String × JsonVal) × Cache
  | cache, [] => ([], cache)
  | cache, (k, v) :: rest =>
    let r := process_response_body o cfg ctx cache v
    let rr := processBodyObj o cfg ctx r.2 rest
    ((k, r.1) :: rr.1, rr.2)

def processBodyArr (o : Oracle) (cfg : Option AuthConfig)
    (ctx : Option RequestContext) : Cache → List JsonVal →
    List JsonVal × Cache
  | cache, [] => ([], cache)
  | cache, v :: rest =>
    let r := process_response_body o cfg ctx cache v
    let rr := processBodyArr o cfg ctx r.2 rest
    (r.1 :: rr.1, rr.2)

end

/-- C9: a string in a response body is replaced wholesale by a generator
only when the whole string (after the auth pass) equals one of the six
template tokens exactly; any other string — in particular one that merely
contains a token — instead goes through the timestamp-pattern and
path-parameter passes. -/
theorem process_body_exact_token_only
    (o : Oracle) (cfg : Option AuthConfig) (ctx : Option RequestContext)
    (cache : Cache) (s : String) :
    ((resolve_auth_placeholders_str cfg ctx o cache s).1 = tokUuid →
      process_response_body o cfg ctx cache (JsonVal.str s)
        = (JsonVal.str o.genUuid,
           (resolve_auth_placeholders_str cfg ctx o cache s).2)) ∧
    ((resolve_auth_placeholders_str cfg ctx o cache s).1 = tokCurrentTs →
      process_response_body o cfg ctx cache (JsonVal.str s)
        = (JsonVal.str o.genCurrentTs,
           (resolve_auth_placeholders_str cfg ctx o cache s).2)) ∧
    ((resolve_auth_placeholders_str cfg ctx o cache s).1 = tokTs →
      process_response_body o cfg ctx cache (JsonVal.str s)
        = (JsonVal.str o.genTs,
           (resolve_auth_placeholders_str cfg ctx o cache s).2)) ∧
    ((resolve_auth_placeholders_str cfg ctx o cache s).1 = tokDate →
      process_response_body o cfg ctx cache (JsonVal.str s)
        = (JsonVal.str o.genDate,
           (resolve_auth_placeholders_str cfg ctx o cache s).2)) ∧
    ((resolve_auth_placeholders_str cfg ctx o cache s).1 = tokUnixTs →
      process_response_body o cfg ctx cache (JsonVal.str s)
        = (JsonVal.str o.genUnixTs,
           (resolve_auth_placeholders_str cfg ctx o cache s).2)) ∧
    ((resolve_auth_placeholders_str cfg ctx o cache s).1 = tokUnixTsMs →
      process_response_body o cfg ctx cache (JsonVal.str s)
        = (JsonVal.str o.genUnixTsMs,
           (resolve_auth_placeholders_str cfg ctx o cache s).2)) ∧
    ((resolve_auth_placeholders_str cfg ctx o cache s).1 ∉
        [tokUuid, tokCurrentTs, tokTs, tokDate, tokUnixTs, tokUnixTsMs] →
      process_response_body o cfg ctx cache (JsonVal.str s)
        = (JsonVal.str (pathParamMangle (substitute_timestamp_templates o
            (resolve_auth_placeholders_str cfg ctx o cache s).1)),
           (resolve_auth_placeholders_str cfg ctx o cache s).2)) := by
  refine ⟨?_, ?_, ?_, ?_, ?_, ?_, ?_⟩ <;> intro h
  · simp [process_response_body, h]
  · simp [process_response_body, h, tokUuid, tokCurrentTs]
  · simp [process_response_body, h, tokUuid, tokCurrentTs, tokTs]
  · simp [process_response_body, h, tokUuid, tokCurrentTs, tokTs, tokDate]
  · simp [process_response_body, h, tokUuid, tokCurrentTs, tokTs, tokDate,
      tokUnixTs]
  · simp [process_response_body, h, tokUuid, tokCurrentTs, tokTs, tokDate,
      tokUnixTs, tokUnixTsMs]
  · simp only [List.mem_cons, List.mem_singleton, not_or] at h
    obtain ⟨h1, h2, h3, h4, h5, h6, _⟩ := h
    simp [process_response_body, h1, h2, h3, h4, h5, h6]

/-- Oracle with distinguishable generator outputs, for witnesses. -/
def oGen : Oracle :=
  { pick := fun _ => 0, genUuid := "uuid-1", genCurrentTs := "ct-1",
    genTs := "ts-1", genDate := "d-1", genUnixTs := "u-1",
    genUnixTsMs := "ms-1" }

/-- Witness for C9: the exact token `{{random_uuid}}` is replaced by the
generated UUID, while `x{{random_uuid}}` (containing but not equal to the
token) is not — it comes out of the generic passes as
`x{path_param_random_uuid}`. -/
theorem process_body_exact_token_only_witness :
    process_response_body oGen none none [] (JsonVal.str tokUuid)
      = (JsonVal.str "uuid-1", []) ∧
    process_response_body oGen none none []
        (JsonVal.str "x\x7b\x7brandom_uuid\x7d\x7d")
      = (JsonVal.str "x\x7bpath_param_random_uuid\x7d", []) := by
  have h := process_body_exact_token_only oGen none none [] tokUuid
  have h2 := process_body_exact_token_only oGen none none []
    "x\x7b\x7brandom_uuid\x7d\x7d"
  exact ⟨(h.1 (by rfl)).trans rfl,
    (h2.2.2.2.2.2.2 (by decide)).trans rfl⟩

/-! ### Static response dispatch of the generated handlers
(`src/handlers/routes.py` lines 121-129 and 232-252)

The matched rule's body is JSON-serialized (`json.dumps` with default
separators), path-parameter tokens `{name}` are replaced by `str.replace`
on that text, and the result is parsed back; the model keeps the response
content at the serialized-text level. -/

/-- JSON string escaping for the characters our bodies can contain
(quote, backslash, and the common control characters). -/
def escapeJsonChar (c : Char) : List Char :=
  if c = '"' then ['\\', '"']
  else if c = '\\' then ['\\', '\\']
  else if c = '\n' then ['\\', 'n']
  else if c = '\t' then ['\\', 't']
  else if c = '\r' then ['\\', 'r']
  else [c]

/-- JSON escaping over a character list. -/
def jsonEscapeL : List Char → List Char
  | [] => []
  | c :: t => escapeJsonChar c ++ jsonEscapeL t

/-- JSON escaping of a string. -/
def jsonEscape (s : String) : String :=
  (jsonEscapeL s.data).asString

mutual

/-- Model of Python `json.dumps` with its default separators
`(", ", ": ")`. -/
def jsonDumps : JsonVal → String
  | JsonVal.null => "null"
  | JsonVal.bool true => "true"
  | JsonVal.bool false => "false"
  | JsonVal.int n => toString n
  | JsonVal.str s => "\"" ++ jsonEscape s ++ "\""
  | JsonVal.arr xs => "[" ++ jsonDumpsList xs ++ "]"
  | JsonVal.obj kvs => "\x7b" ++ jsonDumpsObj kvs ++ "\x7d"

def jsonDumpsList : List JsonVal → String
  | [] => ""
  | [x] => jsonDumps x
  | x :: y :: t => jsonDumps x ++ ", " ++ jsonDumpsList (y :: t)

def jsonDumpsObj : List (String × JsonVal) → String
  | [] => ""
  | [(k, v)] => "\"" ++ jsonEscape k ++ "\": " ++ jsonDumps v
  | (k, v) :: y :: t =>
    "\"" ++ jsonEscape k ++ "\": " ++ jsonDumps v ++ ", " ++ jsonDumpsObj (y :: t)

end

/-- Model of Python `str.replace`: replace every non-overlapping
occurrence of `pat`, scanning left to right. -/
def strReplaceL (pat rep : List Char) : Nat → List Char → List Char
  | 0, l => l
  | _ + 1, [] => []
  | fuel + 1, c :: rest =>
    if pat.isPrefixOf (c :: rest) && !pat.isEmpty then
      rep ++ strReplaceL pat rep fuel ((c :: rest).drop pat.length)
    else c :: strReplaceL pat rep fuel rest

/-- Python `s.replace(pat, rep)` on strings. -/
def pyReplace (s pat rep : String) : String :=
  (strReplaceL pat.data rep.data (s.data.length + 1) s.data).asString

/-- The path-parameter substitution loop of `create_handler` (routes.py
lines 246-248): for each parameter name declared in the configured path,
replace the text `{name}` in the serialized body with the request's value
for that parameter. -/
def pathParamsReplace (path_param_names : List String)
    (path_params : List (String × String)) (body_str : String) : String :=
  path_param_names.foldl (fun acc key =>
    match alistFind path_params key with
    | some v => pyReplace acc ("\x7b" ++ key ++ "\x7d") v
    | none => acc) body_str

/-- A configured response: status code, body and headers.  The Python
code reads these with `dict.get` defaults; configurations in the claims
always carry them explicitly. -/
structure ResponseSpec where
  status_code : Nat
  body : JsonVal
  headers : List (String × JsonVal) := []
deriving Repr, DecidableEq

/-- One response rule: optional body conditions (None = wildcard) plus the
response. -/
structure ResponseRule where
  body_conditions : Option (List (String × JsonVal))
  response : ResponseSpec
deriving Repr, DecidableEq

/-- A handler result: HTTP status, response content at the
serialized-JSON-text level, and processed headers. -/
structure HandlerResponse where
  status_code : Nat
  content_str : String
  headers : List (String × JsonVal)
deriving Repr, DecidableEq

/-- The no-match fallback payload of `create_handler` (routes.py line
252). -/
def configErrorPayload : JsonVal :=
  JsonVal.obj [("error", JsonVal.str "Server Configuration Error"),
    ("detail", JsonVal.str "No matching response rule found.")]

/-- Model of the static response loop of `create_handler` (routes.py lines
232-252): first rule whose conditions are None or satisfied by the body
wins; its headers then body are template-processed (sharing the
request-cycle cache, empty at cycle start), the body is serialized, path
parameters substituted textually; if no rule matches the result is the 500
configuration-error response. -/
def static_dispatch (o : Oracle) (cfg : Option AuthConfig)
    (ctx : Option RequestContext) (path_param_names : List String)
    (path_params : List (String × String))
    (request_body : List (String × JsonVal)) :
    List ResponseRule → HandlerResponse
  | [] =>
    { status_code := 500, content_str := jsonDumps configErrorPayload,
      headers := [] }
  | rule :: rest =>
    if rule.body_conditions = none ∨
        check_conditions request_body (rule.body_conditions.getD []) = true then
      let hpair := process_response_headers cfg o [] rule.response.headers
      let bpair := process_response_body o cfg ctx hpair.2 rule.response.body
      let body_str := jsonDumps bpair.1
      { status_code := rule.response.status_code,
        content_str := pathParamsReplace path_param_names path_params body_str,
        headers := hpair.1 }
    else
      static_dispatch o cfg ctx path_param_names path_params request_body rest

/-- The inline condition check of `create_handler_with_body` (routes.py
line 123): `all(request_body.get(k) == v for k, v in conditions.items())`
— unlike `check_conditions`, the empty conditions dict matches. -/
def pyAllConds (request_body : List (String × JsonVal))
    (conds : List (String × JsonVal)) : Bool :=
  conds.all (fun kv => decide (pyGet request_body kv.1 = kv.2))

/-- Model of the static response loop of `create_handler_with_body`
(routes.py lines 121-129): the matched rule's response is returned raw
(no template processing), and when no rule matches the fallback is a 400
"No matching response condition found" — not a 500. -/
def body_handler_dispatch (request_body : List (String × JsonVal)) :
    List ResponseRule → Nat × JsonVal
  | [] => (400, JsonVal.obj
      [("error", JsonVal.str "No matching response condition found")])
  | rule :: rest =>
    if rule.body_conditions = none ∨
        pyAllConds request_body (rule.body_conditions.getD []) = true then
      (rule.response.status_code, rule.response.body)
    else
      body_handler_dispatch request_body rest

/-- Helper for C4: when every rule's conditions are non-null and
unsatisfied, `create_handler`'s loop falls through to the 500
configuration-error response. -/
theorem static_dispatch_no_match (o : Oracle) (cfg : Option AuthConfig)
    (ctx : Option RequestContext) (names : List String)
    (params : List (String × String)) (body : List (String × JsonVal)) :
    ∀ rules : List ResponseRule,
    (∀ r ∈ rules, r.body_conditions ≠ none ∧
      check_conditions body (r.body_conditions.getD []) = false) →
    static_dispatch o cfg ctx names params body rules
      = { status_code := 500, content_str := jsonDumps configErrorPayload,
          headers := [] }
  | [], _ => rfl
  | rule :: rest, h => by
    have hr := h rule (by simp)
    simp only [static_dispatch]
    rw [if_neg]
    · exact static_dispatch_no_match o cfg ctx names params body rest
        (fun r hrr => h r (by simp [hrr]))
    · intro hor
      rcases hor with hc | hc
      · exact hr.1 hc
      · rw [hr.2] at hc
        exact Bool.false_ne_true hc

/-- Helper for C4: under the with-body handler's own (inline) condition
test, a fully unmatched rule list falls through to the 400 response. -/
theorem body_handler_dispatch_no_match (body : List (String × JsonVal)) :
    ∀ rules : List ResponseRule,
    (∀ r ∈ rules, r.body_conditions ≠ none ∧
      pyAllConds body (r.body_conditions.getD []) = false) →
    body_handler_dispatch body rules
      = (400, JsonVal.obj
          [("error", JsonVal.str "No matching response condition found")])
  | [], _ => rfl
  | rule :: rest, h => by
    have hr := h rule (by simp)
    simp only [body_handler_dispatch]
    rw [if_neg]
    · exact body_handler_dispatch_no_match body rest
        (fun r hrr => h r (by simp [hrr]))
    · intro hor
      rcases hor with hc | hc
      · exact hr.1 hc
      · rw [hr.2] at hc
        exact Bool.false_ne_true hc

/-- C4 counterexample: the claim says every configured endpoint handler
answers an unmatched body with 500 and never a 4xx, but the endpoint of
the claim's own example (a rule with `body_conditions = {"kind":"a"}`) is
served by `create_handler_with_body` (any endpoint with a rule carrying
non-empty body_conditions is, per `needs_request_body`), whose fallback is
HTTP 400 "No matching response condition found". -/
theorem body_handler_no_match_returns_400 :
    body_handler_dispatch [("kind", JsonVal.str "b")]
        [⟨some [("kind", JsonVal.str "a")],
          ⟨200, JsonVal.obj [("ok", JsonVal.bool true)], []⟩⟩]
      = (400, JsonVal.obj
          [("error", JsonVal.str "No matching response condition found")])
      ∧ (400 : Nat) ≠ 500 := by
  constructor
  · rfl
  · decide

/-- Amended C4: when no rule matches an otherwise-valid request body,
`create_handler`'s loop returns the 500 configuration-error payload, while
`create_handler_with_body`'s loop returns 400 "No matching response
condition found"; neither ever returns a 2xx in that situation. -/
theorem no_match_fallback_statuses (o : Oracle) (cfg : Option AuthConfig)
    (ctx : Option RequestContext) (names : List String)
    (params : List (String × String)) (body : List (String × JsonVal))
    (rules : List ResponseRule)
    (h : ∀ r ∈ rules, r.body_conditions ≠ none ∧
      check_conditions body (r.body_conditions.getD []) = false ∧
      pyAllConds body (r.body_conditions.getD []) = false) :
    static_dispatch o cfg ctx names params body rules
      = { status_code := 500, content_str := jsonDumps configErrorPayload,
          headers := [] } ∧
    body_handler_dispatch body rules
      = (400, JsonVal.obj
          [("error", JsonVal.str "No matching response condition found")]) :=
  ⟨static_dispatch_no_match o cfg ctx names params body rules
      (fun r hr => ⟨(h r hr).1, (h r hr).2.1⟩),
   body_handler_dispatch_no_match body rules
      (fun r hr => ⟨(h r hr).1, (h r hr).2.2⟩)⟩

/-- Witness for the amended C4 at the claim's example: one rule with
conditions `{"kind":"a"}` against body `{"kind":"b"}`. -/
theorem no_match_fallback_statuses_witness :
    static_dispatch oGen none none [] [] [("kind", JsonVal.str "b")]
        [⟨some [("kind", JsonVal.str "a")],
          ⟨200, JsonVal.obj [("ok", JsonVal.bool true)], []⟩⟩]
      = { status_code := 500, content_str := jsonDumps configErrorPayload,
          headers := [] } := by
  have h := no_match_fallback_statuses oGen none none [] []
    [("kind", JsonVal.str "b")]
    [⟨some [("kind", JsonVal.str "a")],
      ⟨200, JsonVal.obj [("ok", JsonVal.bool true)], []⟩⟩]
    (by intro r hr
        simp only [List.mem_singleton] at hr
        subst hr
        refine ⟨by decide, by decide, by decide⟩)
  exact h.1

/-- C5 evaluation at the claim's failing input (config path `/items/{id}`,
request path parameter `id = "42"`, response body `{"item": "{id}"}`):
`process_response_body` rewrites `{id}` to `path_param_id` (templates.py
line 63) before the handler's own substitution loop (routes.py lines
246-248) runs over the serialized body, so that loop finds no `{id}` left
and the response carries `"item": "path_param_id"` instead of the claimed
`"item": "42"`. -/
theorem path_param_token_mangled_not_substituted :
    static_dispatch oGen none none ["id"] [("id", "42")] []
        [⟨none, ⟨200, JsonVal.obj [("item", JsonVal.str "\x7bid\x7d")], []⟩⟩]
      = { status_code := 200,
          content_str := "\x7b\"item\": \"path_param_id\"\x7d",
          headers := [] } ∧
    pathParamsReplace ["id"] [("id", "42")]
        (jsonDumps (JsonVal.obj [("item", JsonVal.str "path_param_id")]))
      = "\x7b\"item\": \"path_param_id\"\x7d" ∧
    jsonDumps (JsonVal.obj [("item", JsonVal.str "42")])
      = "\x7b\"item\": \"42\"\x7d" ∧
    ("\x7b\"item\": \"path_param_id\"\x7d" : String)
      ≠ "\x7b\"item\": \"42\"\x7d" := by
  refine ⟨?_, rfl, rfl, by decide⟩
  rfl

/-! ### Multi-method auth verifier (`src/auth/security.py` lines 191-315) -/

/-- Credentials presented by one request, as FastAPI hands them to
`verify_auth`: the two header keys, HTTP Basic credentials, a bearer
token, parsed request cookies, and the raw `Cookie`-style header value. -/
structure Creds where
  api_key : Option String := none
  csrf_token : Option String := none
  basic : Option (String × String) := none
  bearer : Option String := none
  cookies : List (String × String) := []
  session_cookie_header : Option String := none

/-- Method configuration with Python's `get(..., {})` default: an absent
method behaves as an empty config. -/
def mcfgOf (cfg : AuthConfig) (m : String) : MethodCfg :=
  (lookupMethod cfg m).getD {}

/-- One entry of the verifier's result map: the credential type, its
value, and (for sessions) the resolved username. -/
structure AuthResult where
  ctype : String
  value : String
  username : Option String := none
deriving Repr, DecidableEq

/-- The session-id extraction of the vmanage_session block (security.py
lines 265-283): the configured cookie first, then — when that is falsy and
a raw Cookie-style header is present — either the `name=value` form
(matching the configured cookie name after stripping) or the bare header
value. -/
def vmanageSessionId (cfg : AuthConfig) (creds : Creds) : Option String :=
  let cookie_name := (mcfgOf cfg "vmanage_session").session_cookie.getD
    "JSESSIONID"
  let sid0 := alistFind creds.cookies cookie_name
  if strTruthy sid0 then sid0
  else
    match creds.session_cookie_header with
    | some h =>
      if h = "" then sid0
      else if hasInfix "=".data h.data then
        let before := (h.data.takeWhile (fun c => !(c == '='))).asString
        let after :=
          ((h.data.dropWhile (fun c => !(c == '='))).drop 1).asString
        if before.trim = cookie_name then some after.trim else sid0
      else some h.trim
    | none => sid0

/-- The error/result accumulation of `verify_auth` (security.py lines
198-296): each required method contributes either a result-map entry or
an error string; the five blocks always all run, in source order. -/
def authScan (auth_methods : List String) (cfg : AuthConfig)
    (creds : Creds) : List String × List (String × AuthResult) :=
  let apiPart : List String × List (String × AuthResult) :=
    if auth_methods.contains "api_key" then
      if strTruthy creds.api_key then
        if (mcfgOf cfg "api_key").valid_keys.contains
            (creds.api_key.getD "") then
          ([], [("api_key",
            { ctype := "api_key", value := creds.api_key.getD "" })])
        else (["Invalid API key"], [])
      else (["Missing API key"], [])
    else ([], [])
  let csrfPart : List String × List (String × AuthResult) :=
    if auth_methods.contains "csrf_token" then
      if strTruthy creds.csrf_token then
        if (mcfgOf cfg "csrf_token").valid_keys.contains
            (creds.csrf_token.getD "") then
          ([], [("csrf_token",
            { ctype := "csrf_token", value := creds.csrf_token.getD "" })])
        else (["Invalid CSRF token"], [])
      else (["Missing CSRF token"], [])
    else ([], [])
  let basicPart : List String × List (String × AuthResult) :=
    if auth_methods.contains "basic_auth" then
      match creds.basic with
      | some (u, p) =>
        if (mcfgOf cfg "basic_auth").valid_credentials.contains (u, p) then
          ([], [("basic_auth", { ctype := "basic", value := u })])
        else (["Invalid credentials"], [])
      | none => (["Missing basic auth credentials"], [])
    else ([], [])
  let bearerPart : List String × List (String × AuthResult) :=
    if auth_methods.contains "oidc_auth_code" ||
        auth_methods.contains "oidc_client_credentials" then
      match creds.bearer with
      | some tok =>
        if (auth_methods.contains "oidc_auth_code" &&
              (mcfgOf cfg "oidc_auth_code").valid_tokens.contains tok) ||
            (auth_methods.contains "oidc_client_credentials" &&
              (mcfgOf cfg "oidc_client_credentials").valid_tokens.contains
                tok) then
          ([], [("oidc", { ctype := "bearer", value := tok })])
        else (["Invalid bearer token"], [])
      | none => (["Missing bearer token"], [])
    else ([], [])
  let sessionPart : List String × List (String × AuthResult) :=
    if auth_methods.contains "vmanage_session" then
      let sid := vmanageSessionId cfg creds
      if strTruthy sid then
        match (mcfgOf cfg "vmanage_session").valid_sessions.find?
            (fun s => s.session_id == sid.getD "") with
        | some s =>
          ([], [("vmanage_session",
            { ctype := "session", value := sid.getD "",
              username := some s.username })])
        | none => (["Invalid session cookie"], [])
      else (["Missing session cookie"], [])
    else ([], [])
  (apiPart.1 ++ csrfPart.1 ++ basicPart.1 ++ bearerPart.1 ++ sessionPart.1,
   apiPart.2 ++ csrfPart.2 ++ basicPart.2 ++ bearerPart.2 ++ sessionPart.2)

/-- The result-map key a required method must have produced (security.py
lines 300-304): the two OIDC methods collapse to `"oidc"`. -/
def resultKey (m : String) : String :=
  if m = "oidc_auth_code" ∨ m = "oidc_client_credentials" then "oidc" else m

/-- The required methods that produced no result entry. -/
def missingMethods (auth_methods : List String)
    (results : List (String × AuthResult)) : List String :=
  auth_methods.filter (fun m => (alistFind results (resultKey m)).isNone)

/-- Python `sep.join(items)`. -/
def pyJoin (sep : String) : List String → String
  | [] => ""
  | [x] => x
  | x :: y :: t => x ++ sep ++ pyJoin sep (y :: t)

/-- The 401 detail message of `verify_auth` (security.py line 310). -/
def authFailDetail (auth_methods : List String) (errs : List String) :
    String :=
  "Authentication failed. Required methods: " ++ pyJoin ", " auth_methods
    ++ ". Errors: " ++ pyJoin "; " errs

/-- Model of `verify_auth` (security.py lines 197-313): 401 with the
aggregated message when any required method is missing from the result
map, the result map otherwise. -/
def verify_auth (auth_methods : List String) (cfg : AuthConfig)
    (creds : Creds) : Except (Nat × String) (List (String × AuthResult)) :=
  let sr := authScan auth_methods cfg creds
  if missingMethods auth_methods sr.2 = [] then Except.ok sr.2
  else Except.error (401, authFailDetail auth_methods sr.1)

/-- Character data of a string append. -/
theorem string_data_append (s t : String) :
    (s ++ t).data = s.data ++ t.data := by
  cases s
  cases t
  rfl

/-- An infix of the left part is an infix of an append. -/
theorem infix_append_left {x a : List Char} (b : List Char)
    (h : x <:+: a) : x <:+: a ++ b :=
  h.trans (List.prefix_append a b).isInfix

/-- An infix of the right part is an infix of an append. -/
theorem infix_append_right (a : List Char) {x b : List Char}
    (h : x <:+: b) : x <:+: a ++ b :=
  h.trans (List.suffix_append a b).isInfix

/-- Every joined element occurs inside the joined string. -/
theorem pyJoin_mem_substring (sep : String) (l : List String) (x : String)
    (hx : x ∈ l) : x.data <:+: (pyJoin sep l).data := by
  induction l with
  | nil => cases hx
  | cons a t ih =>
    cases t with
    | nil =>
      simp only [List.mem_singleton] at hx
      subst hx
      exact List.infix_refl _
    | cons b t2 =>
      rcases List.mem_cons.mp hx with h | h
      · subst h
        show x.data <:+: (x ++ sep ++ pyJoin sep (b :: t2)).data
        rw [string_data_append, string_data_append]
        exact infix_append_left _ (infix_append_left _ (List.infix_refl _))
      · have hx2 := ih h
        show x.data <:+: (a ++ sep ++ pyJoin sep (b :: t2)).data
        rw [string_data_append, string_data_append]
        exact infix_append_right _ hx2

/-- Both the method list and every accumulated error occur inside the 401
detail message. -/
theorem authFailDetail_contains (auth_methods errs : List String) :
    (∀ m ∈ auth_methods,
      m.data <:+: (authFailDetail auth_methods errs).data) ∧
    (∀ e ∈ errs, e.data <:+: (authFailDetail auth_methods errs).data) := by
  constructor
  · intro m hm
    show m.data <:+: ("Authentication failed. Required methods: "
      ++ pyJoin ", " auth_methods ++ ". Errors: " ++ pyJoin "; " errs).data
    rw [string_data_append, string_data_append, string_data_append]
    exact infix_append_left _ (infix_append_left _
      (infix_append_right _ (pyJoin_mem_substring _ _ _ hm)))
  · intro e he
    show e.data <:+: ("Authentication failed. Required methods: "
      ++ pyJoin ", " auth_methods ++ ". Errors: " ++ pyJoin "; " errs).data
    rw [string_data_append, string_data_append, string_data_append]
    exact infix_append_right _ (pyJoin_mem_substring _ _ _ he)

/-- C2: the verifier evaluates every required method — a required method's
"missing" error is accumulated no matter what the other methods did; when
any required method failed to resolve, the result is HTTP 401 whose
message contains every required method name and every accumulated
per-method error string; when all resolved, the result map (with the two
OIDC methods collapsed to the `oidc` key) is returned. -/
theorem verify_auth_aggregation
    (auth_methods : List String) (cfg : AuthConfig) (creds : Creds) :
    (missingMethods auth_methods (authScan auth_methods cfg creds).2 ≠ [] →
      verify_auth auth_methods cfg creds
        = Except.error (401, authFailDetail auth_methods
            (authScan auth_methods cfg creds).1) ∧
      (∀ m ∈ auth_methods, m.data <:+: (authFailDetail auth_methods
        (authScan auth_methods cfg creds).1).data) ∧
      (∀ e ∈ (authScan auth_methods cfg creds).1,
        e.data <:+: (authFailDetail auth_methods
          (authScan auth_methods cfg creds).1).data)) ∧
    (missingMethods auth_methods (authScan auth_methods cfg creds).2 = [] →
      verify_auth auth_methods cfg creds
        = Except.ok (authScan auth_methods cfg creds).2) ∧
    ("api_key" ∈ auth_methods → strTruthy creds.api_key = false →
      "Missing API key" ∈ (authScan auth_methods cfg creds).1) ∧
    ("csrf_token" ∈ auth_methods → strTruthy creds.csrf_token = false →
      "Missing CSRF token" ∈ (authScan auth_methods cfg creds).1) := by
  refine ⟨?_, ?_, ?_, ?_⟩
  · intro hne
    refine ⟨?_, (authFailDetail_contains _ _).1,
      (authFailDetail_contains _ _).2⟩
    simp only [verify_auth]
    rw [if_neg hne]
  · intro he
    simp only [verify_auth]
    rw [if_pos he]
  · intro hm hf
    have hc : auth_methods.contains "api_key" = true :=
      List.elem_iff.mpr hm
    simp only [authScan, hc, if_pos, hf]
    simp
  · intro hm hf
    have hc : auth_methods.contains "csrf_token" = true :=
      List.elem_iff.mpr hm
    simp only [authScan, hc, hf]
    simp

/-- Auth configuration for the C2 witness: one valid API key and one valid
CSRF token. -/
def cfgAuthEx : AuthConfig :=
  ⟨[("api_key", { valid_keys := ["k1"] }),
    ("csrf_token", { valid_keys := ["c1"] })]⟩

/-- Credentials for the C2 witness: a valid API key and no CSRF header. -/
def credsEx : Creds := { api_key := some "k1" }

/-- Witness for C2 at the spec's example: methods `[api_key, csrf_token]`
with a valid API key but no CSRF header give a 401 whose message contains
"Missing CSRF token" (and the API key was still checked: that is the only
accumulated error). -/
theorem verify_auth_aggregation_witness :
    verify_auth ["api_key", "csrf_token"] cfgAuthEx credsEx
      = Except.error (401, authFailDetail ["api_key", "csrf_token"]
          ["Missing CSRF token"]) ∧
    "Missing CSRF token"
      ∈ (authScan ["api_key", "csrf_token"] cfgAuthEx credsEx).1 ∧
    ("Missing CSRF token").data <:+:
      (authFailDetail ["api_key", "csrf_token"] ["Missing CSRF token"]).data
    := by
  have h := verify_auth_aggregation ["api_key", "csrf_token"] cfgAuthEx
    credsEx
  have h1 := h.1 (by decide)
  refine ⟨h1.1.trans (by rfl), h.2.2.2 (by decide) (by rfl), ?_⟩
  exact h1.2.2 "Missing CSRF token" (by decide)
